import Mathlib

/-!
Verification of the Alva electron host process core (`src/electron/main.ts`):
the message Router (the `sender.receive` switch), the Connection store
handling, the preview-process relay, and the pattern-library id allocation.

The embedding models the handler of `sender.receive` (main.ts lines 79-374)
as a pure step function from an inbound message, the router state
(`projectPath`, the `connections` key of the user store) and an environment
of external collaborator results (dialog results, filesystem answers,
persistence reads, the compiler outcome) to the list of envelopes sent by
the switch body, the successor state and the list of `Persistence.persist`
calls.  The unconditional `send(message)` echo of the inbound envelope at
main.ts line 84 happens before the switch and is not a reply; it is not part
of the modelled switch output.
-/

/-- A loosely typed JavaScript value, as stored in the user store's
`connections` key.  Legacy records may hold non-string or absent fields. -/
inductive JsVal where
  | vStr (s : String)
  | vNum (n : Int)
  | vBool (b : Bool)
  | vUndef
deriving DecidableEq, Repr

/-- `typeof v === 'string'` -/
def JsVal.isStr : JsVal → Bool
  | .vStr _ => true
  | _ => false

/-- Extract the string of a `vStr`; only used behind `isStr` filters. -/
def JsVal.asString : JsVal → String
  | .vStr s => s
  | _ => ""

/-- A record of the user store's `connections` collection: an object with
(possibly malformed) `id` and `path` fields. -/
structure StoredRecord where
  id : JsVal
  path : JsVal
deriving DecidableEq, Repr

/-- The well-formedness filter used at main.ts lines 306-309 and 337-339:
`typeof c === 'object' && typeof c.path === 'string' && typeof c.id === 'string'`. -/
def StoredRecord.wellFormed (c : StoredRecord) : Bool :=
  c.path.isStr && c.id.isStr

/-- lodash `isEqual`: full structural equality of records. -/
def isEqual (a b : StoredRecord) : Bool :=
  decide (a = b)

/-- One step of lodash `uniqWith`: keep the next element only when no
already kept element compares equal to it. -/
def uniqStep (eq : StoredRecord → StoredRecord → Bool)
    (acc : List StoredRecord) (x : StoredRecord) : List StoredRecord :=
  if acc.any (fun y => eq y x) then acc else acc ++ [x]

/-- lodash `uniqWith`: keep each element not equal (under `eq`) to an
already kept one, preserving first-seen order. -/
def uniqWith (eq : StoredRecord → StoredRecord → Bool) (l : List StoredRecord) :
    List StoredRecord :=
  l.foldl (uniqStep eq) []

/-! ### Pattern library id namespaces

Modelled from the spec: the `PatternLibrary` model class is not part of the
given sources (only its call sites in `main.ts` are), so its four id
namespaces are modelled from spec section 3: each namespace maps a *context
id* to a *global id* with allocate-once, read-thereafter semantics.  A
context key is the argument list of the corresponding assignment callback
(`[contextId]` for patterns, `[patternId, contextId]` for properties, slots
and enum options, mirroring main.ts lines 282-287). -/

/-- One key-to-global-id binding list of an id namespace. -/
def lookupKey : List (List String × Nat) → List String → Option Nat
  | [], _ => none
  | (k', g) :: rest, k => if k' = k then some g else lookupKey rest k

/-- Modelled from the spec: an append-only, collision-free identifier
namespace of the PatternLibrary (spec section 3). -/
structure IdNamespace where
  assigned : List (List String × Nat)
  next : Nat
deriving DecidableEq, Repr

/-- Look a context key up in the namespace. -/
def IdNamespace.lookup (ns : IdNamespace) (k : List String) : Option Nat :=
  lookupKey ns.assigned k

/-- Modelled from the spec: return the already assigned global id for the
key, or allocate a fresh one (allocate-once, read-thereafter). -/
def IdNamespace.assign (ns : IdNamespace) (k : List String) : Nat × IdNamespace :=
  match ns.lookup k with
  | some g => (g, ns)
  | none => (ns.next, ⟨ns.assigned ++ [(k, ns.next)], ns.next + 1⟩)

/-- Namespace sanity invariant: every allocated global id is below the
allocation counter, and no two bindings share a global id. -/
def IdNamespace.Inv (ns : IdNamespace) : Prop :=
  (∀ p ∈ ns.assigned, p.2 < ns.next) ∧
    ns.assigned.Pairwise (fun a b => a.2 ≠ b.2)

/-- Modelled from the spec: the PatternLibrary owned by a Project, with its
identity and four identifier namespaces (spec sections 3 and 6). -/
structure PatternLibrary where
  id : String
  patternIds : IdNamespace
  propertyIds : IdNamespace
  slotIds : IdNamespace
  enumOptionIds : IdNamespace
deriving DecidableEq, Repr

/-- `library.assignPatternId(contextId)` (callback bound at main.ts line 284). -/
def PatternLibrary.assignPatternId (l : PatternLibrary) (contextId : String) :
    Nat × PatternLibrary :=
  ((l.patternIds.assign [contextId]).1,
    { l with patternIds := (l.patternIds.assign [contextId]).2 })

/-- `library.assignPropertyId(patternId, contextId)` (main.ts line 286). -/
def PatternLibrary.assignPropertyId (l : PatternLibrary) (patternId contextId : String) :
    Nat × PatternLibrary :=
  ((l.propertyIds.assign [patternId, contextId]).1,
    { l with propertyIds := (l.propertyIds.assign [patternId, contextId]).2 })

/-- `library.assignSlotId(patternId, contextId)` (main.ts line 287). -/
def PatternLibrary.assignSlotId (l : PatternLibrary) (patternId contextId : String) :
    Nat × PatternLibrary :=
  ((l.slotIds.assign [patternId, contextId]).1,
    { l with slotIds := (l.slotIds.assign [patternId, contextId]).2 })

/-- `library.assignEnumOptionId(patternId, contextId)` (main.ts line 283). -/
def PatternLibrary.assignEnumOptionId (l : PatternLibrary) (patternId contextId : String) :
    Nat × PatternLibrary :=
  ((l.enumOptionIds.assign [patternId, contextId]).1,
    { l with enumOptionIds := (l.enumOptionIds.assign [patternId, contextId]).2 })

/-- The four namespaces of a PatternLibrary. -/
inductive NsTag where
  | pattern
  | property
  | slot
  | enumOption
deriving DecidableEq, Repr

/-- Project a PatternLibrary to one of its namespaces. -/
def PatternLibrary.ns (l : PatternLibrary) : NsTag → IdNamespace
  | .pattern => l.patternIds
  | .property => l.propertyIds
  | .slot => l.slotIds
  | .enumOption => l.enumOptionIds

/-- All four namespaces satisfy the sanity invariant. -/
def PatternLibrary.Inv (l : PatternLibrary) : Prop :=
  ∀ t : NsTag, (l.ns t).Inv

/-- One callback invocation the external scanner makes against the id
assignment callback set, with the arguments of the call. -/
inductive ScanReq where
  | pattern (contextId : String)
  | property (patternId contextId : String)
  | slot (patternId contextId : String)
  | enumOption (patternId contextId : String)
deriving DecidableEq, Repr

/-- The namespace a scanner callback invocation addresses. -/
def ScanReq.tag : ScanReq → NsTag
  | .pattern _ => .pattern
  | .property _ _ => .property
  | .slot _ _ => .slot
  | .enumOption _ _ => .enumOption

/-- The context key of a scanner callback invocation. -/
def ScanReq.key : ScanReq → List String
  | .pattern c => [c]
  | .property p c => [p, c]
  | .slot p c => [p, c]
  | .enumOption p c => [p, c]

namespace Analyzer

/-- Dispatch one scanner callback invocation to the bound assignment
callback of the library (main.ts lines 282-287 and 317-322). -/
def analyzeStep (lib : PatternLibrary) : ScanReq → Nat × PatternLibrary
  | .pattern c => lib.assignPatternId c
  | .property p c => lib.assignPropertyId p c
  | .slot p c => lib.assignSlotId p c
  | .enumOption p c => lib.assignEnumOptionId p c

/-- Modelled from the spec: `Analyzer.analyze` (the module
`../server/analyzer` is not part of the given sources).  The external
scanner derives from the folder a sequence of callback invocations; the
bridge runs them against the library's assignment callbacks and the
analysis carries the global id answered for each invocation
(spec section 4.5). -/
def analyze (scan : List ScanReq) (lib : PatternLibrary) :
    List (ScanReq × Nat) × PatternLibrary :=
  match scan with
  | [] => ([], lib)
  | r :: rs =>
    let g := (analyzeStep lib r).1
    let lib' := (analyzeStep lib r).2
    ((r, g) :: (analyze rs lib').1, (analyze rs lib').2)

end Analyzer

/-! ### Project and persistence -/

/-- Modelled from the spec: the Project aggregate root and its serialized
JSON form (spec sections 3 and 6): `{ name, path, patternLibrary,
documentTree }`, with `path` optional until first save.  `Project.from` and
`Project.toJSON` translate between the runtime aggregate and this shape
structurally, so the one structure stands for both here. -/
structure Project where
  name : String
  path : Option String
  patternLibrary : PatternLibrary
  documentTree : List String
deriving DecidableEq, Repr

/-- Modelled from the spec: `Project.create({name, path})` constructs a new
empty named Project at the given path (main.ts lines 140-143 is the call
site; the model class is not part of the given sources). -/
def Project.create (name : String) (path : String) : Project :=
  { name := name
    path := some path
    patternLibrary := ⟨"", ⟨[], 0⟩, ⟨[], 0⟩, ⟨[], 0⟩, ⟨[], 0⟩⟩
    documentTree := [] }

/-- `project.toJSON()`: the serialized form of the project. -/
def Project.toJSON (p : Project) : Project := p

/-- `project.setPath(path)` (main.ts line 224). -/
def Project.setPath (p : Project) (path : String) : Project :=
  { p with path := some path }

/-- `project.getPatternLibrary()`. -/
def Project.getPatternLibrary (p : Project) : PatternLibrary :=
  p.patternLibrary

/-- The tagged result of `Persistence.read` (spec section 3:
`Success{contents} | Error{cause}`; the persistence module is an external
collaborator whose result the Router branches on). -/
inductive PersistenceResult where
  | success (contents : Project)
  | error (cause : String)
deriving DecidableEq, Repr

/-! ### Messages -/

/-- Outbound message type tags (`ServerMessageType` members the switch and
the relay emit). -/
inductive ServerMessageType where
  | OpenFileResponse
  | StartApp
  | CreateNewFileResponse
  | AssetReadResponse
  | CreateScriptBundleResponse
  | ConnectPatternLibraryResponse
  | CheckLibraryResponse
  | ContentResponse
  | SketchExportResponse
  | SelectElement
  | UnselectElement
  | HighlightElement
deriving DecidableEq, Repr

/-- One element of a `CheckLibraryResponse` payload:
`{ id, path, connected }` (main.ts lines 355-359). -/
structure CheckItem where
  id : JsVal
  path : JsVal
  connected : Bool
deriving DecidableEq, Repr

/-- One `{name, path, contents}` artifact of a
`CreateScriptBundleResponse` (main.ts lines 246-252). -/
structure BundleItem where
  name : String
  path : String
  contents : String
deriving DecidableEq, Repr

/-- The payload of an outbound envelope, discriminated by its type tag. -/
inductive OutPayload where
  | file (path : String) (contents : Project)
  | text (s : String)
  | analysis (a : List (ScanReq × Nat))
  | checks (items : List CheckItem)
  | bundles (bs : List BundleItem)
  | preview (v : JsVal)
deriving DecidableEq, Repr

/-- An envelope sent by the host process. -/
structure OutEnvelope where
  id : String
  type : ServerMessageType
  payload : OutPayload
deriving DecidableEq, Repr

/-- An inbound envelope consumed by the `sender.receive` switch, with the
payload shape determined by the type tag (spec section 3). -/
inductive InboundMessage where
  | checkForUpdatesRequest (id : String)
  | appLoaded (id : String)
  | createNewFileRequest (id : String)
  | openFileRequest (id : String)
  | assetReadRequest (id : String)
  | save (id : String) (path : String) (project : Project)
  | createScriptBundleRequest (id : String)
  | exportHTML (id : String) (path content : String)
  | exportPDF (id : String) (path content : String)
  | exportPNG (id : String) (path content : String)
  | exportSketch (id : String) (path content : String)
  | connectPatternLibraryRequest (id : String) (project : Project)
  | updatePatternLibraryRequest (id : String) (project : Project)
  | connectedPatternLibraryNotification (id : String) (payload : StoredRecord)
  | checkLibraryRequest (id : String) (libId : String)
  | updateMenu (id : String)
  | contextElementMenuRequest (id : String)
deriving DecidableEq, Repr

/-- The correlation id of an inbound envelope. -/
def InboundMessage.idOf : InboundMessage → String
  | .checkForUpdatesRequest i => i
  | .appLoaded i => i
  | .createNewFileRequest i => i
  | .openFileRequest i => i
  | .assetReadRequest i => i
  | .save i _ _ => i
  | .createScriptBundleRequest i => i
  | .exportHTML i _ _ => i
  | .exportPDF i _ _ => i
  | .exportPNG i _ _ => i
  | .exportSketch i _ _ => i
  | .connectPatternLibraryRequest i _ => i
  | .updatePatternLibraryRequest i _ => i
  | .connectedPatternLibraryNotification i _ => i
  | .checkLibraryRequest i _ => i
  | .updateMenu i => i
  | .contextElementMenuRequest i => i

/-! ### Router state and environment -/

/-- The mutable process state the switch touches: the free-floating
`projectPath` variable and the `connections` key of the user store. -/
structure RouterState where
  projectPath : Option String
  connections : List StoredRecord
deriving DecidableEq, Repr

/-- Results of the external collaborators consulted during one handler
invocation: dialogs, persistence, the filesystem, mime lookup, the build
pipeline, the uuid source, the server port and the external scanner. -/
structure Env where
  isDev : Bool
  nodeEnvDev : Bool
  saveDialog : Option String
  openDialog : Option (List String)
  read : String → PersistenceResult
  fsExists : JsVal → Bool
  mimeLookup : String → Option String
  fileBase64 : String → String
  compilerError : Bool
  outputFile : String → String
  freshId : String
  port : String
  scan : String → List ScanReq

/-- The output of one handler invocation: envelopes sent by the switch
body, the successor state, and the `Persistence.persist` calls made. -/
structure StepResult where
  sends : List OutEnvelope
  state : RouterState
  writes : List (String × Project)
deriving Repr

/-- JavaScript truthiness of an optional string (`undefined` and the empty
string are falsy). -/
def strTruthy : Option String → Bool
  | none => false
  | some s => !(s == "")

/-- `Array.isArray(paths) ? paths[0] : undefined` (main.ts lines 170, 272):
first element of the dialog result, if any. -/
def headPath (paths : Option (List String)) : Option String :=
  match paths with
  | none => none
  | some l => l.head?

/-- `project.getPath()`. -/
def Project.getPath (p : Project) : Option String := p.path

/-- `library.getId()` (main.ts line 301). -/
def PatternLibrary.getId (l : PatternLibrary) : String := l.id

/-- The switch of the `sender.receive` handler, main.ts lines 89-373.  Each
case mirrors the corresponding `case ServerMessageType...` branch. -/
def routerStep (env : Env) (st : RouterState) : InboundMessage → StepResult
  | .checkForUpdatesRequest _ =>
    -- main.ts 90-95: delegates to the auto updater, no reply
    ⟨[], st, []⟩
  | .appLoaded mid =>
    -- main.ts 96-122
    let start : OutEnvelope := ⟨env.freshId, .StartApp, .text env.port⟩
    match st.projectPath with
    | some p =>
      if env.isDev && !(p == "") then
        match env.read p with
        | .error _ => ⟨[start], st, []⟩
        | .success contents =>
          ⟨[⟨mid, .OpenFileResponse, .file p { contents with path := some p }⟩, start],
            st, []⟩
      else ⟨[start], st, []⟩
    | none => ⟨[start], st, []⟩
  | .createNewFileRequest mid =>
    -- main.ts 123-157; the projectPath assignment precedes the path check
    let path := env.saveDialog
    let st' := if env.isDev then { st with projectPath := path } else st
    match path with
    | some p =>
      if p == "" then ⟨[], st', []⟩
      else
        let project := Project.create "Untitled Project" p
        ⟨[⟨mid, .CreateNewFileResponse, .file p project.toJSON⟩], st', [(p, project)]⟩
    | none => ⟨[], st', []⟩
  | .openFileRequest mid =>
    -- main.ts 158-193; the projectPath assignment precedes the path check
    let path := headPath env.openDialog
    let st' := if env.isDev then { st with projectPath := path } else st
    match path with
    | some p =>
      if p == "" then ⟨[], st', []⟩
      else
        match env.read p with
        | .error _ => ⟨[], st', []⟩
        | .success contents =>
          ⟨[⟨mid, .OpenFileResponse, .file p { contents with path := some p }⟩], st', []⟩
    | none => ⟨[], st', []⟩
  | .assetReadRequest mid =>
    -- main.ts 194-221
    match env.openDialog with
    | none => ⟨[], st, []⟩
    | some l =>
      match l.head? with
      | none => ⟨[], st, []⟩
      | some p =>
        if p == "" then ⟨[], st, []⟩
        else
          let mime := (env.mimeLookup p).getD "application/octet-stream"
          ⟨[⟨mid, .AssetReadResponse,
              .text ("data:" ++ mime ++ ";base64," ++ env.fileBase64 p)⟩], st, []⟩
  | .save _ path proj =>
    -- main.ts 222-231, fire-and-forget
    let project := proj.setPath path
    let st' := if env.nodeEnvDev then { st with projectPath := project.getPath } else st
    ⟨[], st', [(path, project)]⟩
  | .createScriptBundleRequest mid =>
    -- main.ts 232-257
    if env.compilerError then ⟨[], st, []⟩
    else
      let items := ["renderer", "preview"].map (fun name =>
        ({ name := name
           path := "/" ++ name ++ ".js"
           contents := env.outputFile ("/" ++ name ++ ".js") } : BundleItem))
      ⟨[⟨mid, .CreateScriptBundleResponse, .bundles items⟩], st, []⟩
  | .exportHTML _ _ _ => ⟨[], st, []⟩
  | .exportPDF _ _ _ => ⟨[], st, []⟩
  | .exportPNG _ _ _ => ⟨[], st, []⟩
  | .exportSketch _ _ _ => ⟨[], st, []⟩
  | .connectPatternLibraryRequest mid proj =>
    -- main.ts 266-297
    match headPath env.openDialog with
    | none => ⟨[], st, []⟩
    | some p =>
      if p == "" then ⟨[], st, []⟩
      else
        let library := proj.getPatternLibrary
        ⟨[⟨mid, .ConnectPatternLibraryResponse,
            .analysis (Analyzer.analyze (env.scan p) library).1⟩], st, []⟩
  | .updatePatternLibraryRequest mid proj =>
    -- main.ts 298-332
    let library := proj.getPatternLibrary
    match (st.connections.filter StoredRecord.wellFormed).find?
        (fun c => c.id == JsVal.vStr library.getId) with
    | none => ⟨[], st, []⟩
    | some c =>
      ⟨[⟨mid, .ConnectPatternLibraryResponse,
          .analysis (Analyzer.analyze (env.scan c.path.asString) library).1⟩], st, []⟩
  | .connectedPatternLibraryNotification _ payload =>
    -- main.ts 333-345
    let previousConnections := st.connections.filter StoredRecord.wellFormed
    ⟨[], { st with connections := uniqWith isEqual (previousConnections ++ [payload]) }, []⟩
  | .checkLibraryRequest mid reqId =>
    -- main.ts 346-365: matches on the raw stored list, no shape filter
    ⟨(st.connections.filter (fun c => c.id == JsVal.vStr reqId)).map (fun c =>
        ⟨mid, .CheckLibraryResponse, .checks [⟨c.id, c.path, env.fsExists c.path⟩]⟩),
      st, []⟩
  | .updateMenu _ =>
    -- main.ts 366-369: delegates to the menu builder, no reply
    ⟨[], st, []⟩
  | .contextElementMenuRequest _ =>
    -- main.ts 370-372: delegates to the context menu builder, no reply
    ⟨[], st, []⟩

/-- The number of reply envelopes (envelopes carrying the inbound
correlation id) owed for an inbound message, as a function of the branch
conditions the switch consults: one per reply-defining request on its
success branch, zero on the documented silent-failure branches and for
event-type messages, and one per matching stored record for
Check-library. -/
def expectedReplies (env : Env) (st : RouterState) : InboundMessage → Nat
  | .appLoaded _ =>
    match st.projectPath with
    | some p =>
      if env.isDev && !(p == "") then
        match env.read p with
        | .success _ => 1
        | .error _ => 0
      else 0
    | none => 0
  | .createNewFileRequest _ =>
    match env.saveDialog with
    | some p => if p == "" then 0 else 1
    | none => 0
  | .openFileRequest _ =>
    match headPath env.openDialog with
    | some p =>
      if p == "" then 0
      else
        match env.read p with
        | .success _ => 1
        | .error _ => 0
    | none => 0
  | .assetReadRequest _ =>
    match env.openDialog with
    | none => 0
    | some l =>
      match l.head? with
      | none => 0
      | some p => if p == "" then 0 else 1
  | .createScriptBundleRequest _ => if env.compilerError then 0 else 1
  | .connectPatternLibraryRequest _ _ =>
    match headPath env.openDialog with
    | none => 0
    | some p => if p == "" then 0 else 1
  | .updatePatternLibraryRequest _ proj =>
    match (st.connections.filter StoredRecord.wellFormed).find?
        (fun c => c.id == JsVal.vStr proj.getPatternLibrary.getId) with
    | none => 0
    | some _ => 1
  | .checkLibraryRequest _ reqId =>
    (st.connections.filter (fun c => c.id == JsVal.vStr reqId)).length
  | _ => 0

/-! ### Preview relay -/

/-- Preview-process message type tags (`PreviewMessageType`). -/
inductive PreviewMessageType where
  | ContentResponse
  | SketchExportResponse
  | SelectElement
  | UnselectElement
  | HighlightElement
  | other (tag : String)
deriving DecidableEq, Repr

/-- A parsed preview-process envelope. -/
structure PreviewMessage where
  id : String
  type : PreviewMessageType
  payload : JsVal
deriving DecidableEq, Repr

/-- The `server.on('client-message')` relay, main.ts lines 379-428.  The
argument is the result of `JSON.parse` on the raw envelope: `none` stands
for an unparseable envelope, which is logged and dropped by the
surrounding try/catch. -/
def relayClientMessage : Option PreviewMessage → List OutEnvelope
  | none => []
  | some m =>
    match m.type with
    | .ContentResponse => [⟨m.id, .ContentResponse, .preview m.payload⟩]
    | .SketchExportResponse => [⟨m.id, .SketchExportResponse, .preview m.payload⟩]
    | .SelectElement => [⟨m.id, .SelectElement, .preview m.payload⟩]
    | .UnselectElement => [⟨m.id, .UnselectElement, .preview JsVal.vUndef⟩]
    | .HighlightElement => [⟨m.id, .HighlightElement, .preview m.payload⟩]
    | .other _ => []

/-- A sequence of Analyzer bridge invocations against arbitrary folders, as
performed over time by the Connect-pattern-library and
Update-pattern-library handlers (both call `Analyzer.analyze` with the
library's assignment callbacks, main.ts lines 281-288 and 316-323). -/
def analyzeRuns (env : Env) (folders : List String) (lib : PatternLibrary) :
    PatternLibrary :=
  folders.foldl (fun l folder => (Analyzer.analyze (env.scan folder) l).2) lib

/-! ### Concrete sample values used to instantiate the theorems -/

/-- A sample environment: dev mode, cancelled dialogs, failing reads, a
filesystem on which only `/tmp/lib-a` exists, and a scanner that reports
one pattern with two properties for every folder. -/
def envA : Env where
  isDev := true
  nodeEnvDev := true
  saveDialog := none
  openDialog := none
  read := fun _ => .error "ENOENT"
  fsExists := fun v => v == JsVal.vStr "/tmp/lib-a"
  mimeLookup := fun _ => none
  fileBase64 := fun _ => ""
  compilerError := false
  outputFile := fun _ => ""
  freshId := "fresh-uuid"
  port := "1879"
  scan := fun _ => [.pattern "C", .property "C" "P1", .property "C" "P2"]

/-- A sample well-formed stored connection. -/
def connA : StoredRecord := ⟨JsVal.vStr "lib-x", JsVal.vStr "/tmp/lib-a"⟩

/-- A second sample well-formed stored connection sharing `connA`'s id but
with a path that does not exist in `envA`'s filesystem. -/
def connB : StoredRecord := ⟨JsVal.vStr "lib-x", JsVal.vStr "/tmp/lib-b"⟩

/-- A malformed legacy record: a string id but no string path. -/
def connBad : StoredRecord := ⟨JsVal.vStr "lib-x", JsVal.vUndef⟩

/-- A sample library whose pattern namespace already binds context key
`["C"]` to global id 0. -/
def libA : PatternLibrary :=
  ⟨"lib-x", ⟨[(["C"], 0)], 1⟩, ⟨[], 0⟩, ⟨[], 0⟩, ⟨[], 0⟩⟩

/-- A sample project owning `libA`. -/
def projA : Project :=
  { name := "Sample", path := some "/tmp/sample.alva", patternLibrary := libA
    documentTree := [] }

/-- A sample environment in which the dialogs succeed and persistence
reads succeed with `projA`. -/
def envC : Env :=
  { envA with
    saveDialog := some "/tmp/Untitled Project.alva"
    openDialog := some ["/tmp/f.alva"]
    read := fun _ => .success projA }

/-! ### Allocate-once lemmas for id namespaces -/

theorem lookupKey_mem {l : List (List String × Nat)} {k : List String} {g : Nat}
    (h : lookupKey l k = some g) : (k, g) ∈ l := by
  induction l with
  | nil => simp [lookupKey] at h
  | cons p rest ih =>
    rcases p with ⟨k', g'⟩
    by_cases hk : k' = k
    · subst hk
      simp [lookupKey] at h
      subst h
      exact List.mem_cons_self _ _
    · simp [lookupKey, hk] at h
      exact List.mem_cons_of_mem _ (ih h)

theorem lookupKey_append_left {l m : List (List String × Nat)} {k : List String} {g : Nat}
    (h : lookupKey l k = some g) : lookupKey (l ++ m) k = some g := by
  induction l with
  | nil => simp [lookupKey] at h
  | cons p rest ih =>
    rcases p with ⟨k', g'⟩
    by_cases hk : k' = k
    · subst hk; simpa [lookupKey] using h
    · simp [lookupKey, hk] at h ⊢
      exact ih h

theorem IdNamespace.lookup_inj {ns : IdNamespace} (hinv : ns.Inv)
    {k k' : List String} {g : Nat}
    (h : ns.lookup k = some g) (h' : ns.lookup k' = some g) : k = k' := by
  by_contra hne
  have hm : (k, g) ∈ ns.assigned := lookupKey_mem h
  have hm' : (k', g) ∈ ns.assigned := lookupKey_mem h'
  have hsym : Symmetric (fun a b : List String × Nat => a.2 ≠ b.2) := by
    intro a b hab
    exact fun e => hab e.symm
  have hpair : (k, g).2 ≠ (k', g).2 := by
    refine hinv.2.forall hsym hm hm' ?_
    intro e
    exact hne (congrArg Prod.fst e)
  exact hpair rfl

theorem IdNamespace.assign_inv {ns : IdNamespace} (hinv : ns.Inv) (k : List String) :
    (ns.assign k).2.Inv := by
  unfold IdNamespace.assign
  match h : ns.lookup k with
  | some g => exact hinv
  | none =>
    constructor
    · intro p hp
      simp only [List.mem_append, List.mem_singleton] at hp
      rcases hp with hp | hp
      · exact Nat.lt_succ_of_lt (hinv.1 p hp)
      · subst hp; exact Nat.lt_succ_self _
    · rw [List.pairwise_append]
      refine ⟨hinv.2, List.pairwise_singleton _ _, ?_⟩
      intro a ha b hb
      simp only [List.mem_singleton] at hb
      subst hb
      exact Nat.ne_of_lt (hinv.1 a ha)

theorem IdNamespace.assign_lookup_stable {ns : IdNamespace} {k : List String} {g : Nat}
    (h : ns.lookup k = some g) (k' : List String) :
    (ns.assign k').2.lookup k = some g := by
  unfold IdNamespace.assign
  match h' : ns.lookup k' with
  | some _ => exact h
  | none =>
    show lookupKey (ns.assigned ++ [(k', ns.next)]) k = some g
    exact lookupKey_append_left h

theorem IdNamespace.assign_ret_of_lookup {ns : IdNamespace} {k : List String} {g : Nat}
    (h : ns.lookup k = some g) : (ns.assign k).1 = g := by
  unfold IdNamespace.assign
  rw [h]

theorem IdNamespace.assign_ret_inj {ns : IdNamespace} (hinv : ns.Inv)
    {k k' : List String} {g : Nat}
    (h : ns.lookup k = some g) (h' : (ns.assign k').1 = g) : k' = k := by
  unfold IdNamespace.assign at h'
  match hl : ns.lookup k' with
  | some g' =>
    rw [hl] at h'
    simp only at h'
    subst h'
    exact IdNamespace.lookup_inj hinv hl h
  | none =>
    rw [hl] at h'
    simp only at h'
    have hlt : g < ns.next := hinv.1 (k, g) (lookupKey_mem h)
    rw [h'] at hlt
    exact absurd hlt (Nat.lt_irrefl _)

/-! ### Allocate-once through the Analyzer bridge -/

theorem analyzeStep_ns_other (lib : PatternLibrary) (r : ScanReq) (t : NsTag)
    (h : r.tag ≠ t) : ((Analyzer.analyzeStep lib r).2).ns t = lib.ns t := by
  cases r <;> cases t <;>
    first
      | exact absurd rfl h
      | rfl

theorem analyzeStep_ns_same (lib : PatternLibrary) (r : ScanReq) (t : NsTag)
    (h : r.tag = t) :
    ((Analyzer.analyzeStep lib r).2).ns t = ((lib.ns t).assign r.key).2 ∧
      (Analyzer.analyzeStep lib r).1 = ((lib.ns t).assign r.key).1 := by
  cases r <;> cases t <;>
    first
      | exact ⟨rfl, rfl⟩
      | exact absurd h (by intro e; cases e)

theorem analyzeStep_inv {lib : PatternLibrary} (hinv : lib.Inv) (r : ScanReq) :
    (Analyzer.analyzeStep lib r).2.Inv := by
  intro t
  by_cases h : r.tag = t
  · rw [(analyzeStep_ns_same lib r t h).1]
    exact IdNamespace.assign_inv (hinv t) _
  · rw [analyzeStep_ns_other lib r t h]
    exact hinv t

/-- Core allocate-once property of one Analyzer bridge invocation: an
existing binding survives, the invariant is maintained, and every callback
answer in the produced analysis agrees with the binding (same key gives the
bound global id, and the bound global id is only given for that key). -/
theorem analyze_alloc (scan : List ScanReq) (lib : PatternLibrary) (hinv : lib.Inv)
    (t : NsTag) (k : List String) (g : Nat) (hk : (lib.ns t).lookup k = some g) :
    (Analyzer.analyze scan lib).2.Inv ∧
      ((Analyzer.analyze scan lib).2.ns t).lookup k = some g ∧
      ∀ p ∈ (Analyzer.analyze scan lib).1,
        p.1.tag = t → ((p.1.key = k → p.2 = g) ∧ (p.2 = g → p.1.key = k)) := by
  induction scan generalizing lib with
  | nil => exact ⟨hinv, hk, by intro p hp; simp [Analyzer.analyze] at hp⟩
  | cons r rs ih =>
    have hinv1 : (Analyzer.analyzeStep lib r).2.Inv := analyzeStep_inv hinv r
    have hk1 : (((Analyzer.analyzeStep lib r).2).ns t).lookup k = some g := by
      by_cases h : r.tag = t
      · rw [(analyzeStep_ns_same lib r t h).1]
        exact IdNamespace.assign_lookup_stable hk _
      · rw [analyzeStep_ns_other lib r t h]
        exact hk
    have htail := ih (Analyzer.analyzeStep lib r).2 hinv1 hk1
    refine ⟨htail.1, htail.2.1, ?_⟩
    intro p hp hpt
    simp only [Analyzer.analyze, List.mem_cons] at hp
    rcases hp with hp | hp
    · subst hp
      simp only at hpt ⊢
      have hsame := analyzeStep_ns_same lib r t hpt
      constructor
      · intro hkey
        rw [hsame.2, hkey]
        exact IdNamespace.assign_ret_of_lookup hk
      · intro hgv
        rw [hsame.2] at hgv
        exact IdNamespace.assign_ret_inj (hinv t) hk hgv
    · exact htail.2.2 p hp hpt

theorem analyzeRuns_alloc (env : Env) (folders : List String) (lib : PatternLibrary)
    (hinv : lib.Inv) (t : NsTag) (k : List String) (g : Nat)
    (hk : (lib.ns t).lookup k = some g) :
    (analyzeRuns env folders lib).Inv ∧
      ((analyzeRuns env folders lib).ns t).lookup k = some g := by
  induction folders generalizing lib with
  | nil => exact ⟨hinv, hk⟩
  | cons f fs ih =>
    have h := analyze_alloc (env.scan f) lib hinv t k g hk
    exact ih _ h.1 h.2.1

/-! ### Helper lemmas about the connection store and reply counting -/

theorem filter_id_map_const {mid : String} (l : List StoredRecord)
    (f : StoredRecord → OutEnvelope) (hf : ∀ c, (f c).id = mid) :
    ((l.map f).filter (fun e => e.id == mid)).length = l.length := by
  induction l with
  | nil => rfl
  | cons c cs ih => simp [hf, ih]

theorem any_isEqual (acc : List StoredRecord) (x : StoredRecord) :
    acc.any (fun y => isEqual y x) = decide (x ∈ acc) := by
  induction acc with
  | nil => rfl
  | cons a as ih =>
    simp only [List.any_cons, ih]
    by_cases h : a = x
    · subst h; simp [isEqual]
    · simp [isEqual, h, List.mem_cons, Ne.symm h]

theorem foldl_uniqStep_nodup (l : List StoredRecord) :
    ∀ acc : List StoredRecord, l.Nodup → (∀ x ∈ l, x ∉ acc) →
      l.foldl (uniqStep isEqual) acc = acc ++ l := by
  induction l with
  | nil => intro acc _ _; simp
  | cons x xs ih =>
    intro acc hnd hdisj
    have hx : x ∉ acc := hdisj x (List.mem_cons_self _ _)
    have hstep : uniqStep isEqual acc x = acc ++ [x] := by
      simp [uniqStep, any_isEqual, hx]
    have hdisj' : ∀ z ∈ xs, z ∉ acc ++ [x] := by
      intro z hz
      simp only [List.mem_append, List.mem_singleton]
      rintro (h | h)
      · exact hdisj z (List.mem_cons_of_mem _ hz) h
      · subst h
        exact (List.nodup_cons.mp hnd).1 hz
    calc (x :: xs).foldl (uniqStep isEqual) acc
        = xs.foldl (uniqStep isEqual) (acc ++ [x]) := by rw [List.foldl_cons, hstep]
      _ = (acc ++ [x]) ++ xs := ih (acc ++ [x]) (List.nodup_cons.mp hnd).2 hdisj'
      _ = acc ++ (x :: xs) := by simp

theorem uniqWith_nodup_self {l : List StoredRecord} (h : l.Nodup) :
    uniqWith isEqual l = l := by
  have := foldl_uniqStep_nodup l [] h (by simp)
  simpa [uniqWith] using this

theorem uniqWith_append_mem {l : List StoredRecord} {p : StoredRecord}
    (hnd : l.Nodup) (hp : p ∈ l) : uniqWith isEqual (l ++ [p]) = l := by
  unfold uniqWith
  rw [List.foldl_append]
  have h1 : l.foldl (uniqStep isEqual) [] = l := by
    have := foldl_uniqStep_nodup l [] hnd (by simp)
    simpa using this
  rw [h1]
  show uniqStep isEqual l p = l
  simp [uniqStep, any_isEqual, hp]

/-! ## Claim theorems -/

/-- C3: For every Open-file request: if the dialog yields no path, no reply
envelope is ever sent for that request id; if a path is chosen and
`Persistence.read` returns an Error-tagged result, no reply is sent; if it
returns Success, exactly one `OpenFileResponse` with the request's id is
sent whose contents carry the chosen path written into their `path` field. -/
theorem claim_c3 (env : Env) (st : RouterState) (mid : String) :
    (headPath env.openDialog = none →
      (routerStep env st (.openFileRequest mid)).sends = []) ∧
    ∀ p, headPath env.openDialog = some p → p ≠ "" →
      (∀ cause, env.read p = .error cause →
        (routerStep env st (.openFileRequest mid)).sends = []) ∧
      ∀ contents, env.read p = .success contents →
        (routerStep env st (.openFileRequest mid)).sends =
          [⟨mid, .OpenFileResponse, .file p { contents with path := some p }⟩] := by
  constructor
  · intro h
    simp [routerStep, h]
  · intro p hp hne
    constructor
    · intro cause hc
      simp [routerStep, hp, hne, hc]
    · intro contents hc
      simp [routerStep, hp, hne, hc]

/-- Witness for C3: in `envC` the dialog chooses `/tmp/f.alva` and the read
succeeds with `projA`, so exactly one reply is sent, with the path written
into the contents. -/
theorem claim_c3_witness :
    (routerStep envC ⟨none, []⟩ (.openFileRequest "m")).sends =
      [⟨"m", .OpenFileResponse, .file "/tmp/f.alva"
        { projA with path := some "/tmp/f.alva" }⟩] :=
  ((claim_c3 envC ⟨none, []⟩ "m").2 "/tmp/f.alva" rfl (by decide)).2 projA rfl

/-- C7: For every Create-new-file request: if the save dialog yields a
path, a new empty named Project is constructed at that path, persisted, and
exactly one `CreateNewFileResponse` carrying the request's id is sent whose
`payload.path` equals the chosen path and whose `payload.contents` is the
serialized form of the newly created empty project; if the dialog is
cancelled, no reply is sent. -/
theorem claim_c7 (env : Env) (st : RouterState) (mid : String) :
    (env.saveDialog = none →
      (routerStep env st (.createNewFileRequest mid)).sends = []) ∧
    ∀ p, env.saveDialog = some p → p ≠ "" →
      (routerStep env st (.createNewFileRequest mid)).sends =
        [⟨mid, .CreateNewFileResponse,
          .file p (Project.create "Untitled Project" p).toJSON⟩] ∧
      (routerStep env st (.createNewFileRequest mid)).writes =
        [(p, Project.create "Untitled Project" p)] := by
  constructor
  · intro h
    simp [routerStep, h]
  · intro p hp hne
    constructor
    · simp [routerStep, hp, hne]
    · simp [routerStep, hp, hne]

/-- Witness for C7, scenario A of the spec: chosen path
`/tmp/Untitled Project.alva` yields exactly one reply carrying the path and
the new empty project, which is also persisted. -/
theorem claim_c7_witness :
    (routerStep envC ⟨none, []⟩ (.createNewFileRequest "m")).sends =
      [⟨"m", .CreateNewFileResponse, .file "/tmp/Untitled Project.alva"
        (Project.create "Untitled Project" "/tmp/Untitled Project.alva").toJSON⟩] ∧
    (routerStep envC ⟨none, []⟩ (.createNewFileRequest "m")).writes =
      [("/tmp/Untitled Project.alva",
        Project.create "Untitled Project" "/tmp/Untitled Project.alva")] :=
  (claim_c7 envC ⟨none, []⟩ "m").2 "/tmp/Untitled Project.alva" rfl (by decide)

/-- C10: In development mode, the Create-new-file and Open-file handlers
assign the dialog's result to the in-memory last-known project path before
checking whether a path was chosen, so a cancelled dialog overwrites the
remembered path with undefined (clearing it), even though no project was
created or opened. -/
theorem claim_c10 (env : Env) (st : RouterState) (mid mid' : String)
    (hdev : env.isDev = true) :
    ((routerStep env st (.createNewFileRequest mid)).state.projectPath
        = env.saveDialog) ∧
    ((routerStep env st (.openFileRequest mid')).state.projectPath
        = headPath env.openDialog) ∧
    (env.saveDialog = none →
      (routerStep env st (.createNewFileRequest mid)).state.projectPath = none ∧
      (routerStep env st (.createNewFileRequest mid)).sends = [] ∧
      (routerStep env st (.createNewFileRequest mid)).writes = []) ∧
    (headPath env.openDialog = none →
      (routerStep env st (.openFileRequest mid')).state.projectPath = none ∧
      (routerStep env st (.openFileRequest mid')).sends = []) := by
  refine ⟨?_, ?_, ?_, ?_⟩
  · cases h : env.saveDialog with
    | none => simp [routerStep, h, hdev]
    | some p =>
      by_cases hp : p = ""
      · simp [routerStep, h, hdev, hp]
      · simp [routerStep, h, hdev, hp]
  · cases h : headPath env.openDialog with
    | none => simp [routerStep, h, hdev]
    | some p =>
      by_cases hp : p = ""
      · simp [routerStep, h, hdev, hp]
      · cases hr : env.read p with
        | error cause => simp [routerStep, h, hdev, hp, hr]
        | success contents => simp [routerStep, h, hdev, hp, hr]
  · intro h
    simp [routerStep, h, hdev]
  · intro h
    simp [routerStep, h, hdev]

/-- Witness for C10: in `envA` (development mode, both dialogs cancelled)
a previously remembered path is cleared by both handlers while nothing is
sent or written. -/
theorem claim_c10_witness :
    ((routerStep envA ⟨some "/old.alva", []⟩
        (.createNewFileRequest "m1")).state.projectPath = envA.saveDialog) ∧
    ((routerStep envA ⟨some "/old.alva", []⟩
        (.openFileRequest "m2")).state.projectPath = headPath envA.openDialog) ∧
    (envA.saveDialog = none →
      (routerStep envA ⟨some "/old.alva", []⟩
          (.createNewFileRequest "m1")).state.projectPath = none ∧
      (routerStep envA ⟨some "/old.alva", []⟩ (.createNewFileRequest "m1")).sends = [] ∧
      (routerStep envA ⟨some "/old.alva", []⟩ (.createNewFileRequest "m1")).writes = []) ∧
    (headPath envA.openDialog = none →
      (routerStep envA ⟨some "/old.alva", []⟩
          (.openFileRequest "m2")).state.projectPath = none ∧
      (routerStep envA ⟨some "/old.alva", []⟩ (.openFileRequest "m2")).sends = []) :=
  claim_c10 envA ⟨some "/old.alva", []⟩ "m1" "m2" rfl

/-- C1: For every inbound envelope whose type is a request-type tag that
defines a reply, the Router handler emits exactly one reply envelope whose
id equals the inbound envelope's id, or emits none on the documented
silent-failure branches (the count table `expectedReplies` is 1 on each
success branch and 0 on each silent branch); no request type yields more
than one reply except Check-library, which yields one reply per stored
connection record matching the requested id.  The `StartApp` envelope of
App-loaded carries a fresh uuid, assumed distinct from the inbound id. -/
theorem claim_c1 (env : Env) (st : RouterState) (m : InboundMessage)
    (hfresh : env.freshId ≠ m.idOf) :
    ((routerStep env st m).sends.filter (fun e => e.id == m.idOf)).length
        = expectedReplies env st m ∧
    ((∀ i r, m ≠ .checkLibraryRequest i r) → expectedReplies env st m ≤ 1) := by
  constructor
  · cases m with
    | checkForUpdatesRequest mid => simp [routerStep, expectedReplies]
    | appLoaded mid =>
      simp only [InboundMessage.idOf] at hfresh
      have h2 : (env.freshId == mid) = false := beq_eq_false_iff_ne.mpr hfresh
      cases hpp : st.projectPath with
      | none => simp [routerStep, expectedReplies, hpp, h2, InboundMessage.idOf]
      | some p =>
        cases hc : (env.isDev && !(p == "")) with
        | false => simp [routerStep, expectedReplies, hpp, hc, h2, InboundMessage.idOf]
        | true =>
          cases hr : env.read p with
          | error c =>
            simp [routerStep, expectedReplies, hpp, hc, hr, h2, InboundMessage.idOf]
          | success c =>
            simp [routerStep, expectedReplies, hpp, hc, hr, h2, InboundMessage.idOf]
    | createNewFileRequest mid =>
      cases h : env.saveDialog with
      | none => simp [routerStep, expectedReplies, h]
      | some p =>
        cases hp : (p == "") with
        | true => simp [routerStep, expectedReplies, h, hp]
        | false => simp [routerStep, expectedReplies, h, hp, InboundMessage.idOf]
    | openFileRequest mid =>
      cases h : headPath env.openDialog with
      | none => simp [routerStep, expectedReplies, h]
      | some p =>
        cases hp : (p == "") with
        | true => simp [routerStep, expectedReplies, h, hp]
        | false =>
          cases hr : env.read p with
          | error c => simp [routerStep, expectedReplies, h, hp, hr]
          | success c => simp [routerStep, expectedReplies, h, hp, hr, InboundMessage.idOf]
    | assetReadRequest mid =>
      cases h : env.openDialog with
      | none => simp [routerStep, expectedReplies, h]
      | some l =>
        cases hh : l.head? with
        | none => simp [routerStep, expectedReplies, h, hh]
        | some p =>
          cases hp : (p == "") with
          | true => simp [routerStep, expectedReplies, h, hh, hp]
          | false => simp [routerStep, expectedReplies, h, hh, hp, InboundMessage.idOf]
    | save mid path proj => simp [routerStep, expectedReplies]
    | createScriptBundleRequest mid =>
      cases hc : env.compilerError with
      | true => simp [routerStep, expectedReplies, hc]
      | false => simp [routerStep, expectedReplies, hc, InboundMessage.idOf]
    | exportHTML mid path content => simp [routerStep, expectedReplies]
    | exportPDF mid path content => simp [routerStep, expectedReplies]
    | exportPNG mid path content => simp [routerStep, expectedReplies]
    | exportSketch mid path content => simp [routerStep, expectedReplies]
    | connectPatternLibraryRequest mid proj =>
      cases h : headPath env.openDialog with
      | none => simp [routerStep, expectedReplies, h]
      | some p =>
        cases hp : (p == "") with
        | true => simp [routerStep, expectedReplies, h, hp]
        | false => simp [routerStep, expectedReplies, h, hp, InboundMessage.idOf]
    | updatePatternLibraryRequest mid proj =>
      cases h : (st.connections.filter StoredRecord.wellFormed).find?
          (fun c => c.id == JsVal.vStr proj.getPatternLibrary.getId) with
      | none => simp [routerStep, expectedReplies, h]
      | some c => simp [routerStep, expectedReplies, h, InboundMessage.idOf]
    | connectedPatternLibraryNotification mid payload =>
      simp [routerStep, expectedReplies]
    | checkLibraryRequest mid reqId =>
      simp only [routerStep, expectedReplies, InboundMessage.idOf]
      exact filter_id_map_const _ _ (fun c => rfl)
    | updateMenu mid => simp [routerStep, expectedReplies]
    | contextElementMenuRequest mid => simp [routerStep, expectedReplies]
  · intro hnot
    cases m with
    | checkLibraryRequest i r => exact absurd rfl (hnot i r)
    | appLoaded mid =>
      cases hpp : st.projectPath with
      | none => simp [expectedReplies, hpp]
      | some p =>
        cases hc : (env.isDev && !(p == "")) with
        | false => simp [expectedReplies, hpp, hc]
        | true =>
          cases hr : env.read p <;> simp [expectedReplies, hpp, hc, hr]
    | createNewFileRequest mid =>
      cases h : env.saveDialog with
      | none => simp [expectedReplies, h]
      | some p => cases hp : (p == "") <;> simp [expectedReplies, h, hp]
    | openFileRequest mid =>
      cases h : headPath env.openDialog with
      | none => simp [expectedReplies, h]
      | some p =>
        cases hp : (p == "") with
        | true => simp [expectedReplies, h, hp]
        | false => cases hr : env.read p <;> simp [expectedReplies, h, hp, hr]
    | assetReadRequest mid =>
      cases h : env.openDialog with
      | none => simp [expectedReplies, h]
      | some l =>
        cases hh : l.head? with
        | none => simp [expectedReplies, h, hh]
        | some p => cases hp : (p == "") <;> simp [expectedReplies, h, hh, hp]
    | createScriptBundleRequest mid =>
      cases hc : env.compilerError <;> simp [expectedReplies, hc]
    | connectPatternLibraryRequest mid proj =>
      cases h : headPath env.openDialog with
      | none => simp [expectedReplies, h]
      | some p => cases hp : (p == "") <;> simp [expectedReplies, h, hp]
    | updatePatternLibraryRequest mid proj =>
      cases h : (st.connections.filter StoredRecord.wellFormed).find?
          (fun c => c.id == JsVal.vStr proj.getPatternLibrary.getId) <;>
        simp [expectedReplies, h]
    | checkForUpdatesRequest mid => simp [expectedReplies]
    | save mid path proj => simp [expectedReplies]
    | exportHTML mid path content => simp [expectedReplies]
    | exportPDF mid path content => simp [expectedReplies]
    | exportPNG mid path content => simp [expectedReplies]
    | exportSketch mid path content => simp [expectedReplies]
    | connectedPatternLibraryNotification mid payload => simp [expectedReplies]
    | updateMenu mid => simp [expectedReplies]
    | contextElementMenuRequest mid => simp [expectedReplies]

/-- Witness for C1: an Open-file request in `envC` (successful dialog and
read) yields a reply count of exactly one. -/
theorem claim_c1_witness :
    (((routerStep envC ⟨none, []⟩ (.openFileRequest "m")).sends.filter
        (fun e => e.id == (InboundMessage.openFileRequest "m").idOf)).length
      = expectedReplies envC ⟨none, []⟩ (.openFileRequest "m")) ∧
    ((∀ i r, (InboundMessage.openFileRequest "m") ≠ .checkLibraryRequest i r) →
      expectedReplies envC ⟨none, []⟩ (.openFileRequest "m") ≤ 1) :=
  claim_c1 envC ⟨none, []⟩ (.openFileRequest "m") (by decide)

/-- C4: For every Update-pattern-library request: if no stored Connection's
id equals the request's PatternLibrary id, no reply is sent; otherwise the
Analyzer bridge is run against the matching Connection's stored path with
the same id-assignment callbacks as the initial connect, and exactly one
reply carrying the request's id is sent under the same connect-response tag
(`ConnectPatternLibraryResponse`) as a Connect-pattern-library reply (third
conjunct: the Connect handler emits the same reply shape for a chosen
folder). -/
theorem claim_c4 (env : Env) (st : RouterState) (mid : String) (proj : Project) :
    ((st.connections.filter StoredRecord.wellFormed).find?
        (fun c => c.id == JsVal.vStr proj.getPatternLibrary.getId) = none →
      (routerStep env st (.updatePatternLibraryRequest mid proj)).sends = []) ∧
    (∀ c, (st.connections.filter StoredRecord.wellFormed).find?
        (fun c => c.id == JsVal.vStr proj.getPatternLibrary.getId) = some c →
      (routerStep env st (.updatePatternLibraryRequest mid proj)).sends =
        [⟨mid, .ConnectPatternLibraryResponse,
          .analysis (Analyzer.analyze (env.scan c.path.asString)
            proj.getPatternLibrary).1⟩]) ∧
    (∀ p, headPath env.openDialog = some p → p ≠ "" →
      (routerStep env st (.connectPatternLibraryRequest mid proj)).sends =
        [⟨mid, .ConnectPatternLibraryResponse,
          .analysis (Analyzer.analyze (env.scan p) proj.getPatternLibrary).1⟩]) := by
  refine ⟨?_, ?_, ?_⟩
  · intro h
    simp [routerStep, h]
  · intro c h
    simp [routerStep, h]
  · intro p hp hne
    simp [routerStep, hp, hne]

/-- Witness for C4: with `connA` stored for `projA`'s library id, the
Update handler replies exactly once under the connect-response tag with the
analysis of the stored path. -/
theorem claim_c4_witness :
    (routerStep envC ⟨none, [connA]⟩ (.updatePatternLibraryRequest "m" projA)).sends =
      [⟨"m", .ConnectPatternLibraryResponse,
        .analysis (Analyzer.analyze (envC.scan connA.path.asString)
          projA.getPatternLibrary).1⟩] :=
  (claim_c4 envC ⟨none, [connA]⟩ "m" projA).2.1 connA (by decide)

/-- C5: For every Check-library request, one reply envelope carrying the
request's id is sent per stored connection record whose id equals the
requested id, each reply's payload being a one-element list
`{id, path, connected}` in which `connected` is true exactly when that
record's path exists on the filesystem; the last conjunct is the concrete
two-connection scenario (one existing path, one not) producing two replies
with `connected` true and false respectively. -/
theorem claim_c5 (env : Env) (st : RouterState) (mid reqId : String) :
    ((routerStep env st (.checkLibraryRequest mid reqId)).sends
        = (st.connections.filter (fun c => c.id == JsVal.vStr reqId)).map (fun c =>
            ⟨mid, .CheckLibraryResponse,
              .checks [⟨c.id, c.path, env.fsExists c.path⟩]⟩)) ∧
    ((routerStep env st (.checkLibraryRequest mid reqId)).sends.length
        = (st.connections.filter (fun c => c.id == JsVal.vStr reqId)).length) ∧
    ((routerStep envA ⟨none, [connA, connB]⟩ (.checkLibraryRequest "m" "lib-x")).sends
        = [⟨"m", .CheckLibraryResponse, .checks [⟨connA.id, connA.path, true⟩]⟩,
           ⟨"m", .CheckLibraryResponse, .checks [⟨connB.id, connB.path, false⟩]⟩]) := by
  refine ⟨rfl, ?_, by decide⟩
  simp [routerStep]

/-- C6 counterexample: a stored list holding the same Connection twice is
shrunk by the notification handler even though the incoming payload is
structurally equal to an already-stored Connection, so the stored list's
length does change. -/
theorem claim_c6_cex :
    ((routerStep envA ⟨none, [connA, connA]⟩
        (.connectedPatternLibraryNotification "m" connA)).state.connections).length
      ≠ ([connA, connA] : List StoredRecord).length := by decide

/-- C6 (amended): provided the stored list holds only well-formed records
and no structural duplicates (as every list the handler itself writes
does), processing a Connected-pattern-library notification whose payload is
structurally equal to an already-stored Connection leaves the stored list
unchanged (in particular its length and order); in general the handler
appends then deduplicates by full structural equality, preserving
first-seen order. -/
theorem claim_c6 (env : Env) (st : RouterState) (mid : String) (p : StoredRecord)
    (hwf : ∀ c ∈ st.connections, c.wellFormed = true)
    (hnd : st.connections.Nodup) (hp : p ∈ st.connections) :
    (routerStep env st (.connectedPatternLibraryNotification mid p)).state.connections
      = st.connections := by
  have hfilter : st.connections.filter StoredRecord.wellFormed = st.connections :=
    List.filter_eq_self.mpr hwf
  show uniqWith isEqual (st.connections.filter StoredRecord.wellFormed ++ [p])
      = st.connections
  rw [hfilter]
  exact uniqWith_append_mem hnd hp

/-- Witness for C6: re-inserting `connA` into the deduplicated well-formed
store `[connA, connB]` leaves it unchanged. -/
theorem claim_c6_witness :
    (routerStep envA ⟨none, [connA, connB]⟩
        (.connectedPatternLibraryNotification "m" connA)).state.connections
      = [connA, connB] :=
  claim_c6 envA ⟨none, [connA, connB]⟩ "m" connA (by decide) (by decide) (by decide)

/-- C8 counterexample: the Check-library handler matches the raw stored
list, so a malformed record without a string path (`connBad`) that carries
the requested id is used and answered, instead of being dropped. -/
theorem claim_c8_cex :
    (routerStep envA ⟨none, [connBad]⟩ (.checkLibraryRequest "m" "lib-x")).sends
        = [⟨"m", .CheckLibraryResponse,
            .checks [⟨JsVal.vStr "lib-x", JsVal.vUndef, false⟩]⟩] ∧
      connBad.wellFormed = false := by decide

/-- C8 (amended): the id-resolution step of the Update-pattern-library
handler operates only on records having both a string path and a string id
(any reply it sends stems from a well-formed stored record), but the
record-matching step of the Check-library handler applies no such filter:
it emits one reply per raw stored record whose id equals the requested id,
malformed records included. -/
theorem claim_c8_amended (env : Env) (st : RouterState) (mid reqId : String)
    (proj : Project) :
    ((routerStep env st (.updatePatternLibraryRequest mid proj)).sends ≠ [] →
      ∃ c ∈ st.connections, c.wellFormed = true ∧
        c.id = JsVal.vStr proj.getPatternLibrary.getId ∧
        (routerStep env st (.updatePatternLibraryRequest mid proj)).sends =
          [⟨mid, .ConnectPatternLibraryResponse,
            .analysis (Analyzer.analyze (env.scan c.path.asString)
              proj.getPatternLibrary).1⟩]) ∧
    ((routerStep env st (.checkLibraryRequest mid reqId)).sends.length
        = (st.connections.filter (fun c => c.id == JsVal.vStr reqId)).length) := by
  constructor
  · intro hne
    cases h : (st.connections.filter StoredRecord.wellFormed).find?
        (fun c => c.id == JsVal.vStr proj.getPatternLibrary.getId) with
    | none =>
      exact absurd (by simp [routerStep, h]) hne
    | some c =>
      have hmemf : c ∈ st.connections.filter StoredRecord.wellFormed :=
        List.mem_of_find?_eq_some h
      have hcwf : c.wellFormed = true := (List.mem_filter.mp hmemf).2
      have hcmem : c ∈ st.connections := (List.mem_filter.mp hmemf).1
      have hcid : c.id = JsVal.vStr proj.getPatternLibrary.getId := by
        have h2 := List.find?_some h
        simpa using h2
      exact ⟨c, hcmem, hcwf, hcid, by simp [routerStep, h]⟩
  · simp [routerStep]

/-- Witness for C8 (amended): with the well-formed `connA` stored, the
Update handler's reply stems from that well-formed record. -/
theorem claim_c8_witness :
    ∃ c ∈ ([connA] : List StoredRecord), c.wellFormed = true ∧
      c.id = JsVal.vStr projA.getPatternLibrary.getId ∧
      (routerStep envA ⟨none, [connA]⟩ (.updatePatternLibraryRequest "m" projA)).sends =
        [⟨"m", .ConnectPatternLibraryResponse,
          .analysis (Analyzer.analyze (envA.scan c.path.asString)
            projA.getPatternLibrary).1⟩] :=
  (claim_c8_amended envA ⟨none, [connA]⟩ "m" "x" projA).1 (by decide)

/-- C9 counterexample: the relay branch for an Unselect preview envelope
replaces the payload with `undefined` rather than re-emitting the same
payload. -/
theorem claim_c9_cex :
    relayClientMessage (some ⟨"i", .UnselectElement, JsVal.vStr "x"⟩)
        = [⟨"i", ServerMessageType.UnselectElement, .preview JsVal.vUndef⟩] ∧
      OutPayload.preview JsVal.vUndef ≠ OutPayload.preview (JsVal.vStr "x") := by
  exact ⟨rfl, by decide⟩

/-- C9 (amended): for every parseable preview-process envelope whose type
is a recognized preview tag, the relay re-emits exactly one envelope with
the same id under the corresponding translated primary message type, with
the same payload for the content-response, sketch-export-response, select
and highlight tags but with an `undefined` payload for unselect; envelopes
with unrecognized tags and unparseable envelopes are dropped without
terminating the Router. -/
theorem claim_c9_amended (m : PreviewMessage) :
    (relayClientMessage none = []) ∧
    (m.type = .ContentResponse →
      relayClientMessage (some m) = [⟨m.id, .ContentResponse, .preview m.payload⟩]) ∧
    (m.type = .SketchExportResponse →
      relayClientMessage (some m) =
        [⟨m.id, .SketchExportResponse, .preview m.payload⟩]) ∧
    (m.type = .SelectElement →
      relayClientMessage (some m) = [⟨m.id, .SelectElement, .preview m.payload⟩]) ∧
    (m.type = .HighlightElement →
      relayClientMessage (some m) = [⟨m.id, .HighlightElement, .preview m.payload⟩]) ∧
    (m.type = .UnselectElement →
      relayClientMessage (some m) =
        [⟨m.id, ServerMessageType.UnselectElement, .preview JsVal.vUndef⟩]) ∧
    (∀ s, m.type = .other s → relayClientMessage (some m) = []) := by
  obtain ⟨i, ty, pl⟩ := m
  refine ⟨rfl, ?_, ?_, ?_, ?_, ?_, ?_⟩
  all_goals
    first
      | (intro h; subst h; rfl)
      | (intro s h; subst h; rfl)

/-- Witness for C9 (amended): a select preview envelope is re-emitted once
with the same id and payload under the translated tag. -/
theorem claim_c9_witness :
    relayClientMessage (some ⟨"i", .SelectElement, JsVal.vStr "x"⟩)
        = [⟨"i", ServerMessageType.SelectElement, .preview (JsVal.vStr "x")⟩] :=
  (claim_c9_amended ⟨"i", .SelectElement, JsVal.vStr "x"⟩).2.2.2.1 rfl

/-- C2: For every namespace and every context key, once the PatternLibrary
id-assignment callbacks have bound a global id to that key, every later
invocation of the Analyzer bridge — as performed by the
Connect-pattern-library and Update-pattern-library handlers against any
sequence of folders — still finds the binding, answers the same global id
for that key, and never answers that global id for a different key in the
same namespace. -/
theorem claim_c2 (env : Env) (lib : PatternLibrary) (hinv : lib.Inv) (t : NsTag)
    (k : List String) (g : Nat) (hk : (lib.ns t).lookup k = some g)
    (folders : List String) (folder : String) :
    (((Analyzer.analyze (env.scan folder) (analyzeRuns env folders lib)).2.ns t).lookup k
        = some g) ∧
    ∀ p ∈ (Analyzer.analyze (env.scan folder) (analyzeRuns env folders lib)).1,
      p.1.tag = t → ((p.1.key = k → p.2 = g) ∧ (p.2 = g → p.1.key = k)) := by
  have hruns := analyzeRuns_alloc env folders lib hinv t k g hk
  have h := analyze_alloc (env.scan folder) _ hruns.1 t k g hruns.2
  exact ⟨h.2.1, h.2.2⟩

/-- Witness for C2: `libA` already binds pattern context key `["C"]` to
global id 0; after an intermediate run and a final analysis (whose scans
re-request `["C"]` and allocate fresh property ids) the binding is intact
and every pattern answer for `["C"]` is 0. -/
theorem claim_c2_witness :
    ((((Analyzer.analyze (envA.scan "/f2")
          (analyzeRuns envA ["/f1"] libA)).2.ns NsTag.pattern).lookup ["C"])
        = some 0) ∧
    ∀ p ∈ (Analyzer.analyze (envA.scan "/f2") (analyzeRuns envA ["/f1"] libA)).1,
      p.1.tag = NsTag.pattern →
        ((p.1.key = ["C"] → p.2 = 0) ∧ (p.2 = 0 → p.1.key = ["C"])) :=
  claim_c2 envA libA (by intro t; cases t <;> exact ⟨by decide, by decide⟩)
    NsTag.pattern ["C"] 0 (by decide) ["/f1"] "/f2"
